import Mathlib

/-
Shallow embedding of the web-stalker repository (src/main.py, src/v2.py):
a website technology scanner that applies fixed case-insensitive regular
expression tables to an HTML body and HTTP response headers.

All regular expressions appearing in the source are alternations of fixed
literals, except "node.js|javascript" whose dot matches any character but a
newline, and "cscart|var/(cache|compiled)" which contains one capture group.
We model such a regex as a list of fixed-length branches tried in order,
each branch split into the part before the group and the group part.
-/

namespace WebStalker

/-- One regex atom: a literal character (stored lowercased, since every
pattern in the source is compiled with re.I) or the dot metacharacter. -/
inductive Atom where
  | lit (c : Char)
  | anyChar

/-- One alternation branch of fixed length: atoms before the capture group
and the atoms of the capture group (empty when the branch has no group). -/
structure Branch where
  pre : List Atom
  grp : List Atom

/-- A compiled pattern: ordered branches plus whether the regex contains a
capture group (which changes what findall returns, as in Python re). -/
structure RePat where
  branches : List Branch
  hasGroup : Bool

def atomMatches : Atom → Char → Bool
  | Atom.lit l, c => c.toLower == l
  | Atom.anyChar, c => !(c == '\n')

/-- Literal atoms of a string, lowercased (re.I). -/
def lits (s : String) : List Atom :=
  s.data.map (fun c => Atom.lit c.toLower)

def atomsMatch : List Atom → List Char → Bool
  | [], _ => true
  | _ :: _, [] => false
  | a :: as, c :: cs => atomMatches a c && atomsMatch as cs

def branchLen (b : Branch) : Nat := b.pre.length + b.grp.length

def branchMatches (b : Branch) (s : List Char) : Bool :=
  atomsMatch (b.pre ++ b.grp) s

/-- First branch (in alternation order) matching at the head of s. -/
def findBranch (bs : List Branch) (s : List Char) : Option Branch :=
  bs.find? (fun b => branchMatches b s)

/-- Leftmost match scan: Python re search semantics for these patterns. -/
def searchAux (bs : List Branch) : List Char → Nat → Option (Nat × Branch)
  | [], i =>
    match findBranch bs [] with
    | some b => some (i, b)
    | none => none
  | c :: t, i =>
    match findBranch bs (c :: t) with
    | some b => some (i, b)
    | none => searchAux bs t (i + 1)

/-- Python slice s[a:b] for nonnegative clamped bounds. -/
def pySlice (s : List Char) (a b : Nat) : List Char :=
  (s.drop a).take (b - a)

def pySliceNat (s : String) (a b : Nat) : String :=
  String.mk (pySlice s.data a b)

/-- pattern.search(s): start index and the literally matched substring
(original casing), or none. -/
def pySearch (p : RePat) (s : String) : Option (Nat × String) :=
  match searchAux p.branches s.data 0 with
  | some (i, b) => some (i, String.mk (pySlice s.data i (i + branchLen b)))
  | none => none

/-- pattern.findall(s) worker: scans left to right, non-overlapping; when the
pattern has a capture group the group text is returned (Python semantics). -/
def findallAux (p : RePat) (full : List Char) : Nat → List Char → Nat → List String
  | 0, _, _ => []
  | _ + 1, [], i =>
    match findBranch p.branches [] with
    | some b =>
      if p.hasGroup then [String.mk (pySlice full (i + b.pre.length) (i + b.pre.length + b.grp.length))]
      else [String.mk (pySlice full i (i + branchLen b))]
    | none => []
  | fuel + 1, c :: t, i =>
    match findBranch p.branches (c :: t) with
    | some b =>
      let txt := if p.hasGroup then String.mk (pySlice full (i + b.pre.length) (i + b.pre.length + b.grp.length))
                 else String.mk (pySlice full i (i + branchLen b))
      if branchLen b == 0 then txt :: findallAux p full fuel t (i + 1)
      else txt :: findallAux p full fuel (List.drop (branchLen b) (c :: t)) (i + branchLen b)
    | none => findallAux p full fuel t (i + 1)

def pyFindall (p : RePat) (s : String) : List String :=
  findallAux p s.data (s.data.length + 1) s.data 0

/-- Whether the first list is an initial segment of the second. -/
def leadsList : List Char → List Char → Bool
  | [], _ => true
  | _ :: _, [] => false
  | a :: as, b :: bs => a == b && leadsList as bs

def hasSub (needle : List Char) : List Char → Bool
  | [] => needle.isEmpty
  | c :: t => leadsList needle (c :: t) || hasSub needle t

/-- Python case-sensitive substring containment: needle in hay. -/
def strHas (hay needle : String) : Bool :=
  hasSub needle.data hay.data

def findSubAux (needle : List Char) : List Char → Nat → Option Nat
  | [], i => if needle.isEmpty then some i else none
  | c :: t, i => if leadsList needle (c :: t) then some i else findSubAux needle t (i + 1)

/-- Python str.find: index of first occurrence of needle, or -1. -/
def pyFind (hay needle : String) : Int :=
  match findSubAux needle.data hay.data 0 with
  | some i => Int.ofNat i
  | none => -1

def isSpaceChar (c : Char) : Bool :=
  c == ' ' || c == '\t' || c == '\n' || c == '\r' || c == '\x0b' || c == '\x0c'

/-- Python str.strip(): remove leading and trailing whitespace. -/
def pyStrip (s : String) : String :=
  String.mk (((s.data.dropWhile isSpaceChar).reverse.dropWhile isSpaceChar).reverse)

/-- A Python dict with string keys and values, as an ordered key-value list. -/
abbrev PyDict := List (String × String)

def pat1 (a : String) : RePat :=
  { branches := [{ pre := lits a, grp := [] }], hasGroup := false }

def pat2 (a b : String) : RePat :=
  { branches := [{ pre := lits a, grp := [] }, { pre := lits b, grp := [] }], hasGroup := false }

/-- re.compile(r"cscart|var/(cache|compiled)", re.I). -/
def csCartPat : RePat :=
  { branches := [{ pre := lits "cscart", grp := [] },
                 { pre := lits "var/", grp := lits "cache" },
                 { pre := lits "var/", grp := lits "compiled" }],
    hasGroup := true }

/-- re.compile(r"node.js|javascript", re.I); the dot is the metacharacter. -/
def nodePat : RePat :=
  { branches := [{ pre := lits "node" ++ Atom.anyChar :: lits "js", grp := [] },
                 { pre := lits "javascript", grp := [] }],
    hasGroup := false }

/-- TECHNOLOGIES table of main.py and v2.py, in declaration order. -/
def TECHNOLOGIES : List (String × RePat) :=
  [("WordPress", pat2 "wp-content" "wordpress"),
   ("Django", pat2 "csrfmiddlewaretoken" "django"),
   ("Flask", pat2 "flask-session" "flask"),
   ("Ruby on Rails", pat2 "ruby" "rails"),
   ("Laravel", pat2 "laravel" "php artisan"),
   ("Next.js", pat2 "nextjs" "_next"),
   ("React", pat2 "react" "react-dom"),
   ("Vue.js", pat2 "vuejs" "vue-router"),
   ("CS-Cart", csCartPat),
   ("Bitrix", pat2 "bitrix" "bxcore")]

/-- WEB_SERVERS table, in declaration order. -/
def WEB_SERVERS : List (String × RePat) :=
  [("nginx", pat1 "nginx"),
   ("Apache", pat1 "apache"),
   ("LiteSpeed", pat1 "LiteSpeed")]

/-- BACKEND_LANGUAGES table, in declaration order. -/
def BACKEND_LANGUAGES : List (String × RePat) :=
  [("PHP", pat1 "php"),
   ("Python", pat1 "python"),
   ("Ruby", pat1 "ruby"),
   ("Node.js", nodePat)]

/-- Loop of detect_web_server (main.py lines 66-70): first table entry whose
pattern matches the Server header value, else none. -/
def wsScan (s : String) : List (String × RePat) → Option String
  | [] => none
  | e :: rest => if (pySearch e.2 s).isSome then some e.1 else wsScan s rest

/-- detect_web_server (main.py lines 63-71): canonical server name, if any. -/
def detect_web_server (s : String) : Option String :=
  wsScan s WEB_SERVERS

/-- Loop body of identify_technology (main.py lines 76-83): no early return,
so each matching technology overwrites the accumulator. -/
def techLoop (html : String) : List (String × RePat) → Option PyDict → Option PyDict
  | [], acc => acc
  | e :: rest, acc =>
    match pySearch e.2 html with
    | some r => techLoop html rest (some [("name", e.1), ("detected_by", r.2)])
    | none => techLoop html rest acc

/-- identify_technology (main.py lines 73-83): value left in
results["Frontend"] after the loop, if any. -/
def identify_technology (html : String) : Option PyDict :=
  techLoop html TECHNOLOGIES none

/-- any(pattern.search(value) for value in headers.values()). -/
def headerMatch (p : RePat) (headers : List (String × String)) : Bool :=
  headers.any (fun kv => (pySearch p kv.2).isSome)

/-- next((value for value in headers.values() if pattern.search(value)), "Unknown"). -/
def firstHeaderVal (p : RePat) (headers : List (String × String)) : String :=
  match headers.find? (fun kv => (pySearch p kv.2).isSome) with
  | some kv => kv.2
  | none => "Unknown"

/-- match_html or match_header (main.py line 92). -/
def backendHit (e : String × RePat) (html : String) (headers : List (String × String)) : Bool :=
  (pySearch e.2 html).isSome || headerMatch e.2 headers

/-- The dict recorded at main.py lines 97-101. -/
def mkBackendRec (e : String × RePat) (html : String) (headers : List (String × String)) : PyDict :=
  [("name", e.1),
   ("source", if (pySearch e.2 html).isSome then "HTML" else "Headers"),
   ("detected_by", match pySearch e.2 html with
                   | some r => r.2
                   | none => firstHeaderVal e.2 headers)]

/-- Loop of identify_backend_language (main.py lines 88-102): record and
return at the first label with a body or header match. -/
def backendScan (html : String) (headers : List (String × String)) :
    List (String × RePat) → Option PyDict
  | [] => none
  | e :: rest =>
    if backendHit e html headers then some (mkBackendRec e html headers)
    else backendScan html headers rest

/-- identify_backend_language (main.py lines 85-103). -/
def identify_backend_language (html : String) (headers : List (String × String)) : Option PyDict :=
  backendScan html headers BACKEND_LANGUAGES

/-- related_keywords dict of v2.py lines 148-154. -/
def related_keywords : List (String × List String) :=
  [("WordPress", ["wp-content", "wp-includes"]),
   ("Django", ["csrfmiddlewaretoken"]),
   ("Flask", ["flask-session"]),
   ("React", ["react-dom", "jsx"])]

/-- related_keywords.get(tech, []). -/
def keywordsFor (tech : String) : List String :=
  match related_keywords.find? (fun e => e.1 == tech) with
  | some e => e.2
  | none => []

/-- is_valid_context (v2.py lines 145-156): any configured keyword occurs in
the context window (case-sensitive substring test). -/
def is_valid_context (context : String) (tech : String) : Bool :=
  (keywordsFor tech).any (fun k => strHas context k)

/-- Context window of v2.py line 137:
html[max(0, html.find(match) - 50) : html.find(match) + 50]. -/
def contextOf (html m : String) : String :=
  pySliceNat html (pyFind html m - 50).toNat (pyFind html m + 50).toNat

/-- Inner loop of identify_technology_with_context (v2.py lines 136-141):
first match of the list whose window validates, with its window. -/
def firstValidated (html tech : String) : List String → Option (String × String)
  | [] => none
  | m :: ms =>
    if is_valid_context (contextOf html m) tech then some (m, contextOf html m)
    else firstValidated html tech ms

/-- Outer loop of identify_technology_with_context (v2.py lines 132-141). -/
def techContextScan (html : String) : List (String × RePat) → Option PyDict
  | [] => none
  | e :: rest =>
    match firstValidated html e.1 (pyFindall e.2 html) with
    | some mc => some [("name", e.1), ("detected_by", mc.1)]
    | none => techContextScan html rest

/-- identify_technology_with_context (v2.py lines 128-143). -/
def identify_technology_with_context (html : String) : Option PyDict :=
  techContextScan html TECHNOLOGIES

/-- Body-match branch of v2.py lines 168-173: the context window
html[max(0, start - 50) : end + 50] when the body match validates. -/
def bodyValidCtx (e : String × RePat) (html : String) : Option String :=
  match pySearch e.2 html with
  | some r =>
    if is_valid_context (pySliceNat html (r.1 - 50) (r.1 + r.2.length + 50)) e.1 then
      some (pySliceNat html (r.1 - 50) (r.1 + r.2.length + 50))
    else none
  | none => none

/-- Loop of identify_backend_language_with_context (v2.py lines 163-179). -/
def backendContextScan (html : String) (headers : List (String × String)) :
    List (String × RePat) → Option PyDict
  | [] => none
  | e :: rest =>
    match bodyValidCtx e html with
    | some ctx => some [("name", e.1), ("detected_by", pyStrip ctx)]
    | none =>
      if headerMatch e.2 headers then some [("name", e.1), ("detected_by", "Headers")]
      else backendContextScan html headers rest

/-- identify_backend_language_with_context (v2.py lines 159-181). -/
def identify_backend_language_with_context (html : String) (headers : List (String × String)) :
    Option PyDict :=
  backendContextScan html headers BACKEND_LANGUAGES

/-- Outcome of the HTTP fetch, abstracting requests.get: any network error,
timeout or non-success status is failure; success carries the decoded body
and the response headers (in arrival order). -/
inductive FetchResult where
  | failure
  | success (body : String) (headers : List (String × String))

/-- response.headers.get("Server", "Unknown"); requests header lookup is
case-insensitive on the key. -/
def serverHeaderOf (headers : List (String × String)) : String :=
  match headers.find? (fun kv => String.mk (kv.1.data.map Char.toLower) == "server") with
  | some kv => kv.2
  | none => "Unknown"

/-- The scanner's results dict: at most one entry per category. -/
structure ScanResults where
  webServer : Option String
  frontend : Option PyDict
  backendLanguage : Option PyDict
deriving DecidableEq

def emptyResults : ScanResults := ⟨none, none, none⟩

/-- State change of a successful fetch_website (main.py lines 53-57):
results["Web Server"] is set to the raw Server value, then detect_web_server
overwrites it with the canonical table name when a pattern matches. -/
def fetchUpdate (headers : List (String × String)) (r : ScanResults) : ScanResults :=
  let server := serverHeaderOf headers
  let r1 := { r with webServer := some server }
  match detect_web_server server with
  | some canon => { r1 with webServer := some canon }
  | none => r1

/-- run of main.py (lines 105-130) as a function of the fetch outcome and
the --json flag; the Bool of the result tells whether JSON was printed. -/
def mainRun (f : FetchResult) (outputJson : Bool) : ScanResults × Bool :=
  match f with
  | FetchResult.failure => (emptyResults, false)
  | FetchResult.success body headers =>
    let r0 := fetchUpdate headers emptyResults
    if body == "" then (r0, false)
    else ({ r0 with frontend := identify_technology body,
                    backendLanguage := identify_backend_language body headers }, outputJson)

/-- run of v2.py (lines 184-214), using the context-validated detectors. -/
def v2Run (f : FetchResult) (outputJson : Bool) : ScanResults × Bool :=
  match f with
  | FetchResult.failure => (emptyResults, false)
  | FetchResult.success body headers =>
    let r0 := fetchUpdate headers emptyResults
    if body == "" then (r0, false)
    else ({ r0 with frontend := identify_technology_with_context body,
                    backendLanguage := identify_backend_language_with_context body headers }, outputJson)

/-- The end-to-end example body of the spec. -/
def wpBody : String := "<meta name=\"generator\" content=\"WordPress 6.0\">"

/-- A body whose second occurrence of "react" (at index 100) is followed by
" jsx", while its first occurrence (at index 0) is surrounded by filler. -/
def body3 : String := "react" ++ String.mk (List.replicate 95 'a') ++ "react jsx"

theorem techLoop_append (html : String) (l1 l2 : List (String × RePat)) :
    ∀ acc, techLoop html (l1 ++ l2) acc = techLoop html l2 (techLoop html l1 acc) := by
  induction l1 with
  | nil => intro acc; rfl
  | cons e rest ih =>
    intro acc
    cases h : pySearch e.2 html with
    | none => simp [techLoop, h, ih]
    | some r => simp [techLoop, h, ih]

theorem techLoop_nomatch (html : String) :
    ∀ (tbl : List (String × RePat)) acc,
      (∀ e ∈ tbl, (pySearch e.2 html).isSome = false) → techLoop html tbl acc = acc := by
  intro tbl
  induction tbl with
  | nil => intro acc _; rfl
  | cons e rest ih =>
    intro acc h
    have he := h e (by simp)
    cases hs : pySearch e.2 html with
    | none =>
      simp only [techLoop, hs]
      exact ih acc (fun x hx => h x (by simp [hx]))
    | some r => rw [hs] at he; simp at he

theorem techLoop_isSome (html : String) :
    ∀ (tbl : List (String × RePat)) acc,
      (techLoop html tbl acc).isSome
        = (acc.isSome || tbl.any (fun e => (pySearch e.2 html).isSome)) := by
  intro tbl
  induction tbl with
  | nil => intro acc; simp [techLoop]
  | cons e rest ih =>
    intro acc
    cases hs : pySearch e.2 html with
    | none => simp [techLoop, hs, ih, List.any_cons]
    | some r => simp [techLoop, hs, ih, List.any_cons]

theorem wsScan_eq_find (s : String) :
    ∀ tbl : List (String × RePat),
      wsScan s tbl = (tbl.find? (fun e => (pySearch e.2 s).isSome)).map Prod.fst := by
  intro tbl
  induction tbl with
  | nil => rfl
  | cons e rest ih =>
    cases hs : (pySearch e.2 s).isSome with
    | true => simp [wsScan, hs, List.find?_cons, ih]
    | false => simp [wsScan, hs, List.find?_cons, ih]

theorem backendScan_eq_find (html : String) (headers : List (String × String)) :
    ∀ tbl : List (String × RePat),
      backendScan html headers tbl
        = (tbl.find? (fun e => backendHit e html headers)).map
            (fun e => mkBackendRec e html headers) := by
  intro tbl
  induction tbl with
  | nil => rfl
  | cons e rest ih =>
    cases hs : backendHit e html headers with
    | true => simp [backendScan, hs, List.find?_cons]
    | false => simp [backendScan, hs, List.find?_cons, ih]

theorem firstValidated_sound (html tech : String) :
    ∀ (ms : List String) m ctx, firstValidated html tech ms = some (m, ctx) →
      is_valid_context (contextOf html m) tech = true := by
  intro ms
  induction ms with
  | nil => intro m ctx h; simp [firstValidated] at h
  | cons x xs ih =>
    intro m ctx h
    cases hv : is_valid_context (contextOf html x) tech with
    | true =>
      simp [firstValidated, hv] at h
      rw [← h.1]; exact hv
    | false =>
      simp only [firstValidated, hv, Bool.false_eq_true, if_false] at h
      exact ih m ctx h

theorem techContextScan_sound (html : String) :
    ∀ (tbl : List (String × RePat)) d, techContextScan html tbl = some d →
      ∃ tech m, d = [("name", tech), ("detected_by", m)]
        ∧ is_valid_context (contextOf html m) tech = true := by
  intro tbl
  induction tbl with
  | nil => intro d h; simp [techContextScan] at h
  | cons e rest ih =>
    intro d h
    cases hf : firstValidated html e.1 (pyFindall e.2 html) with
    | some mc =>
      simp only [techContextScan, hf, Option.some.injEq] at h
      exact ⟨e.1, mc.1, h.symm, firstValidated_sound html e.1 (pyFindall e.2 html) mc.1 mc.2 hf⟩
    | none =>
      simp only [techContextScan, hf] at h
      exact ih d h

theorem is_valid_context_empty (tech : String) (h : keywordsFor tech = []) :
    ∀ ctx, is_valid_context ctx tech = false := by
  intro ctx
  simp [is_valid_context, h]

theorem backendContextScan_shape (html : String) (headers : List (String × String)) :
    ∀ (tbl : List (String × RePat)) d, backendContextScan html headers tbl = some d →
      d.map Prod.fst = ["name", "detected_by"] := by
  intro tbl
  induction tbl with
  | nil => intro d h; simp [backendContextScan] at h
  | cons e rest ih =>
    intro d h
    cases hb : bodyValidCtx e html with
    | some ctx =>
      simp only [backendContextScan, hb, Option.some.injEq] at h
      rw [← h]; rfl
    | none =>
      cases hh : headerMatch e.2 headers with
      | true =>
        simp only [backendContextScan, hb, hh, if_true, Option.some.injEq] at h
        rw [← h]; rfl
      | false =>
        simp only [backendContextScan, hb, hh, Bool.false_eq_true, if_false] at h
        exact ih d h

theorem backendContextScan_eq_find (html : String) (headers : List (String × String)) :
    ∀ tbl : List (String × RePat),
      backendContextScan html headers tbl
        = (tbl.find? (fun e => (bodyValidCtx e html).isSome || headerMatch e.2 headers)).map
            (fun e => match bodyValidCtx e html with
              | some ctx => [("name", e.1), ("detected_by", pyStrip ctx)]
              | none => [("name", e.1), ("detected_by", "Headers")]) := by
  intro tbl
  induction tbl with
  | nil => rfl
  | cons e rest ih =>
    cases hb : bodyValidCtx e html with
    | some ctx => simp [backendContextScan, hb, List.find?_cons]
    | none =>
      cases hh : headerMatch e.2 headers with
      | true => simp [backendContextScan, hb, hh, List.find?_cons]
      | false => simp [backendContextScan, hb, hh, List.find?_cons, ih]

theorem backendContextScan_headers (html : String) (headers : List (String × String)) :
    ∀ tbl : List (String × RePat), (∀ e ∈ tbl, keywordsFor e.1 = []) →
      ∀ n m, backendContextScan html headers tbl = some [("name", n), ("detected_by", m)] →
        m = "Headers" := by
  intro tbl
  induction tbl with
  | nil => intro _ n m h; simp [backendContextScan] at h
  | cons e rest ih =>
    intro hk n m h
    have hb : bodyValidCtx e html = none := by
      unfold bodyValidCtx
      cases hs : pySearch e.2 html with
      | none => rfl
      | some r => simp [is_valid_context_empty e.1 (hk e (by simp))]
    cases hh : headerMatch e.2 headers with
    | true =>
      simp only [backendContextScan, hb, hh, if_true, Option.some.injEq] at h
      exact (by simpa using congrArg (fun l => l.map Prod.snd) h.symm : _ ∧ _).2
    | false =>
      simp only [backendContextScan, hb, hh, Bool.false_eq_true, if_false] at h
      exact ih (fun x hx => hk x (List.mem_cons_of_mem e hx)) n m h

/-- Claim C1 (amended): under the basic frontend strategy the detector
evaluates every label of TECHNOLOGIES with no early stop; each matching
label overwrites the single Frontend slot, so a detection is recorded iff
some label matches and the recorded Detection is the latest-declared
matching label, with detected_by the literally matched substring; in
particular a body containing both "django" and "flask" records Flask. -/
theorem C1_theorem :
    (∀ html, (identify_technology html).isSome
        = TECHNOLOGIES.any (fun e => (pySearch e.2 html).isSome))
    ∧ (∀ html tbl1 e tbl2 i txt,
        TECHNOLOGIES = tbl1 ++ e :: tbl2 →
        pySearch e.2 html = some (i, txt) →
        (∀ e2 ∈ tbl2, (pySearch e2.2 html).isSome = false) →
        identify_technology html = some [("name", e.1), ("detected_by", txt)])
    ∧ identify_technology "django flask"
        = some [("name", "Flask"), ("detected_by", "flask")] := by
  refine ⟨fun html => ?_, fun html tbl1 e tbl2 i txt hT hs hrest => ?_, by decide⟩
  · simpa using techLoop_isSome html TECHNOLOGIES none
  · rw [identify_technology, hT, techLoop_append]
    simp only [techLoop, hs]
    exact techLoop_nomatch html tbl2 _ hrest

/-- Claim C1 counterexample: a body containing both "django" and "flask"
records Flask, not Django, and Flask is evaluated and recorded after Django
already matched — the claimed first-match rule fails on the code. -/
theorem C1_counterexample :
    identify_technology "django flask" = some [("name", "Flask"), ("detected_by", "flask")]
    ∧ identify_technology "django flask" ≠ some [("name", "Django"), ("detected_by", "django")] :=
  ⟨by decide, by decide⟩

/-- Claim C1 witness: the last-match law instantiated at the body
"django flask", with Flask as the latest-declared matching label. -/
theorem C1_witness :
    identify_technology "django flask" = some [("name", "Flask"), ("detected_by", "flask")] :=
  C1_theorem.2.1 "django flask"
    [("WordPress", pat2 "wp-content" "wordpress"), ("Django", pat2 "csrfmiddlewaretoken" "django")]
    ("Flask", pat2 "flask-session" "flask")
    [("Ruby on Rails", pat2 "ruby" "rails"),
     ("Laravel", pat2 "laravel" "php artisan"),
     ("Next.js", pat2 "nextjs" "_next"),
     ("React", pat2 "react" "react-dom"),
     ("Vue.js", pat2 "vuejs" "vue-router"),
     ("CS-Cart", csCartPat),
     ("Bitrix", pat2 "bitrix" "bxcore")]
    7 "flask" rfl (by decide) (by decide)

/-- Claim C2 counterexample: on the end-to-end example the Frontend
detected_by field is the literally matched substring "WordPress" (the
body's casing), not the lowercase pattern text "wordpress". -/
theorem C2_counterexample :
    (mainRun (FetchResult.success wpBody [("Server", "nginx/1.18.0")]) true).1.frontend
      = some [("name", "WordPress"), ("detected_by", "WordPress")]
    ∧ (mainRun (FetchResult.success wpBody [("Server", "nginx/1.18.0")]) true).1.frontend
      ≠ some [("name", "WordPress"), ("detected_by", "wordpress")] :=
  ⟨by decide, by decide⟩

/-- Claim C2 (amended): for a successful fetch of the example body with
header Server nginx/1.18.0, the aggregated result holds Web Server "nginx"
and a Frontend record with name "WordPress" and detected_by "WordPress"
(the matched substring with the body's casing), no backend record, and the
requested JSON output is emitted. -/
theorem C2_theorem :
    mainRun (FetchResult.success wpBody [("Server", "nginx/1.18.0")]) true
      = ({ webServer := some "nginx",
           frontend := some [("name", "WordPress"), ("detected_by", "WordPress")],
           backendLanguage := none }, true) := by decide

/-- Claim C3 counterexample: in body3 the string "jsx" lies inside the
100-character window around the second occurrence of "react" (indices 50
to 150 around index 100), yet the context-validated detector records
nothing, because the window is always anchored at the first occurrence of
the matched text. -/
theorem C3_counterexample :
    identify_technology_with_context body3 = none
    ∧ strHas (pySliceNat body3 50 150) "jsx" = true :=
  ⟨by decide, by decide⟩

/-- Claim C3 (amended): the validation window is anchored at the first
occurrence in the body of the matched substring, spanning 50 characters
before and 50 characters after that index (clipped at the body bounds); a
match is accepted only if that window contains a label-specific required
keyword; a body containing "react" with no "react-dom" or "jsx" in that
window yields no React detection, while a body whose first "react"
occurrence has "jsx" in its window yields one. -/
theorem C3_theorem :
    (∀ html m (i : Nat), pyFind html m = (i : Int) →
        contextOf html m = pySliceNat html (i - 50) (i + 50))
    ∧ (∀ html n m,
        identify_technology_with_context html = some [("name", n), ("detected_by", m)] →
        is_valid_context (contextOf html m) n = true)
    ∧ identify_technology_with_context "this page uses react for rendering" = none
    ∧ identify_technology_with_context "xx jsx yy react zz"
        = some [("name", "React"), ("detected_by", "react")] := by
  refine ⟨fun html m i h => ?_, fun html n m h => ?_, by decide, by decide⟩
  · have h1 : ((i : Int) - 50).toNat = i - 50 := by omega
    have h2 : ((i : Int) + 50).toNat = i + 50 := by omega
    rw [contextOf, h, h1, h2]
  · obtain ⟨tech, mm, hd, hv⟩ := techContextScan_sound html TECHNOLOGIES _ h
    simp only [List.cons.injEq, Prod.mk.injEq, and_true, true_and] at hd
    rw [hd.1, hd.2]
    exact hv

/-- Claim C3 witness: the window law and the acceptance law instantiated on
the body "xx jsx yy react zz", whose first "react" occurrence is at index
10. -/
theorem C3_witness :
    contextOf "xx jsx yy react zz" "react" = pySliceNat "xx jsx yy react zz" (10 - 50) (10 + 50)
    ∧ is_valid_context (contextOf "xx jsx yy react zz" "react") "React" = true :=
  ⟨C3_theorem.1 "xx jsx yy react zz" "react" 10 (by decide),
   C3_theorem.2.1 "xx jsx yy react zz" "React" "react" (by decide)⟩

/-- Claim C4 counterexample: the record produced from a header match has
keys "name" and "detected_by" only — there is no "source" key, and
detected_by holds the literal string "Headers" rather than the header
value, so the promised three-key shape fails. -/
theorem C4_counterexample :
    identify_backend_language_with_context "" [("X-Powered-By", "PHP/8.1")]
      = some [("name", "PHP"), ("detected_by", "Headers")]
    ∧ ([("name", "PHP"), ("detected_by", "Headers")] : PyDict).map Prod.fst
      ≠ ["name", "source", "detected_by"] :=
  ⟨by decide, by decide⟩

/-- Claim C4 (amended): the context-validated backend detector stops at the
first label whose body match passes context validation or whose pattern
matches some header value; a validated body match is recorded as a
two-field object, name and detected_by holding the stripped context
snippet; otherwise a header match is recorded, without context validation,
as name plus detected_by holding the literal string "Headers"; no record
carries a "source" key. -/
theorem C4_theorem :
    (∀ html headers,
      identify_backend_language_with_context html headers
        = (BACKEND_LANGUAGES.find?
            (fun e => (bodyValidCtx e html).isSome || headerMatch e.2 headers)).map
            (fun e => match bodyValidCtx e html with
              | some ctx => [("name", e.1), ("detected_by", pyStrip ctx)]
              | none => [("name", e.1), ("detected_by", "Headers")]))
    ∧ (∀ html headers d, identify_backend_language_with_context html headers = some d →
        d.map Prod.fst = ["name", "detected_by"])
    ∧ identify_backend_language_with_context "" [("X-Powered-By", "PHP/8.1")]
        = some [("name", "PHP"), ("detected_by", "Headers")] :=
  ⟨fun html headers => backendContextScan_eq_find html headers BACKEND_LANGUAGES,
   fun html headers d h => backendContextScan_shape html headers BACKEND_LANGUAGES d h,
   by decide⟩

/-- Claim C4 witness: the shape law instantiated on an empty body and a
PHP header. -/
theorem C4_witness :
    ([("name", "PHP"), ("detected_by", "Headers")] : PyDict).map Prod.fst
      = ["name", "detected_by"] :=
  C4_theorem.2.1 "" [("X-Powered-By", "PHP/8.1")] [("name", "PHP"), ("detected_by", "Headers")]
    (by decide)

/-- Claim C5: the basic backend detector returns the record of the first
label in BACKEND_LANGUAGES whose pattern matches the body or any header
value, with source "HTML" when the body matched and "Headers" otherwise;
with an empty body and header X-Powered-By PHP/8.1 it yields PHP with
source Headers and detected_by the header value. -/
theorem C5_theorem :
    (∀ html headers,
      identify_backend_language html headers
        = (BACKEND_LANGUAGES.find? (fun e => backendHit e html headers)).map
            (fun e => mkBackendRec e html headers))
    ∧ identify_backend_language "" [("X-Powered-By", "PHP/8.1")]
        = some [("name", "PHP"), ("source", "Headers"), ("detected_by", "PHP/8.1")] :=
  ⟨fun html headers => backendScan_eq_find html headers BACKEND_LANGUAGES, by decide⟩

/-- Claim C6 counterexample: the context-keyword table covers 4 of the 10
frontend labels (WordPress, Django, Flask and React), not 3. -/
theorem C6_counterexample :
    ((TECHNOLOGIES.map Prod.fst).filter (fun n => !(keywordsFor n).isEmpty)).length = 4
    ∧ ((TECHNOLOGIES.map Prod.fst).filter (fun n => !(keywordsFor n).isEmpty)).length ≠ 3 :=
  ⟨by decide, by decide⟩

/-- Claim C6 (amended): the context-keyword table covers exactly 4 of the
10 frontend labels and 0 of the backend labels; a label with no configured
keyword list never passes context validation, so it produces no detection
under the context-validated frontend strategy whatever the body contains,
and every context-validated backend detection comes from a header match. -/
theorem C6_theorem :
    TECHNOLOGIES.length = 10
    ∧ ((TECHNOLOGIES.map Prod.fst).filter (fun n => !(keywordsFor n).isEmpty)).length = 4
    ∧ ((BACKEND_LANGUAGES.map Prod.fst).filter (fun n => !(keywordsFor n).isEmpty)).length = 0
    ∧ (∀ ctx tech, keywordsFor tech = [] → is_valid_context ctx tech = false)
    ∧ (∀ html n m,
        identify_technology_with_context html = some [("name", n), ("detected_by", m)] →
        keywordsFor n ≠ [])
    ∧ (∀ html headers n m,
        identify_backend_language_with_context html headers
          = some [("name", n), ("detected_by", m)] →
        m = "Headers") := by
  refine ⟨by decide, by decide, by decide,
          fun ctx tech h => is_valid_context_empty tech h ctx,
          fun html n m h => ?_,
          fun html headers n m h =>
            backendContextScan_headers html headers BACKEND_LANGUAGES (by decide) n m h⟩
  obtain ⟨tech, mm, hd, hv⟩ := techContextScan_sound html TECHNOLOGIES _ h
  simp only [List.cons.injEq, Prod.mk.injEq, and_true, true_and] at hd
  intro hk
  rw [← hd.1] at hv
  rw [is_valid_context_empty n hk] at hv
  exact Bool.false_ne_true hv

/-- Claim C6 witness: Laravel has no keyword list, so no context ever
validates for it; the recorded React detection has a keyword list; the
backend record of a PHP header match reads Headers. -/
theorem C6_witness :
    is_valid_context "some react page" "Laravel" = false
    ∧ keywordsFor "React" ≠ []
    ∧ ("Headers" : String) = "Headers" :=
  ⟨C6_theorem.2.2.2.1 "some react page" "Laravel" (by decide),
   C6_theorem.2.2.2.2.1 "xx jsx yy react zz" "React" "react" (by decide),
   C6_theorem.2.2.2.2.2 "" [("X-Powered-By", "PHP/8.1")] "PHP" "Headers" (by decide)⟩

/-- Claim C7: the web-server detector walks the WEB_SERVERS table in order
and returns the first label whose case-insensitive pattern matches the
Server header value; an absent Server header defaults the input to
"Unknown", which matches no label, and the detector is total. -/
theorem C7_theorem :
    (∀ s, detect_web_server s
        = (WEB_SERVERS.find? (fun e => (pySearch e.2 s).isSome)).map Prod.fst)
    ∧ serverHeaderOf [] = "Unknown"
    ∧ detect_web_server "Unknown" = none
    ∧ detect_web_server "NGINX/2" = some "nginx" :=
  ⟨fun s => wsScan_eq_find s WEB_SERVERS, by decide, by decide, by decide⟩

/-- Claim C8: when the fetch fails, both run variants end with an empty
results mapping — no web-server, frontend or backend detection — and emit
no JSON, even when JSON output was requested. -/
theorem C8_theorem :
    ∀ b : Bool, mainRun FetchResult.failure b = (emptyResults, false)
      ∧ v2Run FetchResult.failure b = (emptyResults, false) := by
  intro b
  exact ⟨rfl, rfl⟩

/-- Claim C9: after every successful fetch the results mapping holds a Web
Server entry: the canonical table name when a known pattern matches the
Server header value, and otherwise the raw header value itself (defaulted
to "Unknown" when the header is absent). -/
theorem C9_theorem :
    (∀ body headers (b : Bool),
      ((mainRun (FetchResult.success body headers) b).1).webServer
        = some (match detect_web_server (serverHeaderOf headers) with
                | some c => c
                | none => serverHeaderOf headers))
    ∧ (∀ body headers (b : Bool), detect_web_server (serverHeaderOf headers) = none →
        ((mainRun (FetchResult.success body headers) b).1).webServer
          = some (serverHeaderOf headers)) := by
  have key : ∀ body headers (b : Bool),
      ((mainRun (FetchResult.success body headers) b).1).webServer
        = some (match detect_web_server (serverHeaderOf headers) with
                | some c => c
                | none => serverHeaderOf headers) := by
    intro body headers b
    unfold mainRun fetchUpdate
    cases hd : detect_web_server (serverHeaderOf headers) <;>
      by_cases hb : body = "" <;>
      simp [hb, hd]
  refine ⟨key, fun body headers b h => ?_⟩
  rw [key body headers b, h]

/-- Claim C9 witness: with an unrecognized Server value the raw header
value itself is what the aggregate carries. -/
theorem C9_witness :
    ((mainRun (FetchResult.success "<html></html>" [("Server", "CustomServ/1.0")]) true).1).webServer
      = some (serverHeaderOf [("Server", "CustomServ/1.0")]) :=
  C9_theorem.2 "<html></html>" [("Server", "CustomServ/1.0")] true (by decide)

/-- Claim C10: a successful fetch whose body is the empty string takes the
same early exit as a fetch failure in both run variants: no frontend and no
backend detection is recorded and no JSON is emitted, although the headers
were available. -/
theorem C10_theorem :
    ∀ headers (b : Bool),
      ((mainRun (FetchResult.success "" headers) b).1).frontend = none
      ∧ ((mainRun (FetchResult.success "" headers) b).1).backendLanguage = none
      ∧ (mainRun (FetchResult.success "" headers) b).2 = false
      ∧ ((v2Run (FetchResult.success "" headers) b).1).frontend = none
      ∧ ((v2Run (FetchResult.success "" headers) b).1).backendLanguage = none
      ∧ (v2Run (FetchResult.success "" headers) b).2 = false := by
  intro headers b
  unfold mainRun v2Run fetchUpdate
  cases hd : detect_web_server (serverHeaderOf headers) <;> simp [hd, emptyResults]

end WebStalker
